import Mathlib

/-!
Verification development for the EMOGUCHI client (emotion party game).

This file gives a shallow embedding of the parts of the repository that the
verified properties talk about:

* `frontend/types/plutchikEmotions.ts` — the 24-emotion Plutchik wheel data
  and the angle-based emotion distance;
* `frontend/utils/plutchikScoring3Layer.ts` — the 3-layer scoring of a guessed
  emotion against the correct one, and the speaker bonus over a vote set;
* `frontend/utils/` voice processing — the hard-mode emotion-reversal
  voice-distortion selection;
* `frontend/utils/` player storage — the persisted player identifier;
* the zustand game store (`stores/gameStore.ts`) together with the socket
  event handlers of `frontend/hooks/useSocket.ts`, modelled as a step
  relation on the store state.

JavaScript numbers are modelled as exact rationals (`ℚ`), `Math.round` as
`⌊x + 1/2⌋`, thrown exceptions as `Option.none`, and JS objects/records as
association lists in insertion order.  Display-only behaviour
(console logging, React rendering) is not modelled.
-/

/-- The three intensity levels of `plutchikEmotions.ts` (`IntensityLevel`). -/
inductive IntensityLevel
  | weak
  | medium
  | strong
deriving DecidableEq, Repr

/-- One entry of the Plutchik wheel (`PlutchikEmotion` in
`plutchikEmotions.ts`).  The display-only fields `color` and `emoji` are kept
as strings exactly as in the source. -/
structure PlutchikEmotion where
  id : String
  axis : String
  intensity : IntensityLevel
  nameJa : String
  nameEn : String
  color : String
  angle : ℚ
  emoji : String
deriving DecidableEq, Repr

/-- The 24 emotions (3 intensities × 8 axes) of `PLUTCHIK_EMOTIONS_3_LAYER`. -/
def PLUTCHIK_EMOTIONS_3_LAYER : List PlutchikEmotion := [
  -- Joy axis (0°)
  ⟨"joy_strong", "joy", .strong, "陶酔", "Ecstasy", "#FFD700", 0, "🤩"⟩,
  ⟨"joy_medium", "joy", .medium, "喜び", "Joy", "#FFE55C", 0, "😊"⟩,
  ⟨"joy_weak", "joy", .weak, "平穏", "Serenity", "#FFF2B8", 0, "😌"⟩,
  -- Trust axis (45°)
  ⟨"trust_strong", "trust", .strong, "敬愛", "Admiration", "#32CD32", 45, "🤝"⟩,
  ⟨"trust_medium", "trust", .medium, "信頼", "Trust", "#90EE90", 45, "😊"⟩,
  ⟨"trust_weak", "trust", .weak, "容認", "Acceptance", "#C8F7C5", 45, "🙂"⟩,
  -- Fear axis (90°)
  ⟨"fear_strong", "fear", .strong, "恐怖", "Terror", "#800080", 90, "😱"⟩,
  ⟨"fear_medium", "fear", .medium, "恐れ", "Fear", "#9370DB", 90, "😰"⟩,
  ⟨"fear_weak", "fear", .weak, "不安", "Apprehension", "#C8A2C8", 90, "😟"⟩,
  -- Surprise axis (135°)
  ⟨"surprise_strong", "surprise", .strong, "驚嘆", "Amazement", "#1E90FF", 135, "😱"⟩,
  ⟨"surprise_medium", "surprise", .medium, "驚き", "Surprise", "#87CEEB", 135, "😲"⟩,
  ⟨"surprise_weak", "surprise", .weak, "放心", "Distraction", "#B6E2FF", 135, "😐"⟩,
  -- Sadness axis (180°)
  ⟨"sadness_strong", "sadness", .strong, "悲嘆", "Grief", "#000080", 180, "😭"⟩,
  ⟨"sadness_medium", "sadness", .medium, "悲しみ", "Sadness", "#4169E1", 180, "😢"⟩,
  ⟨"sadness_weak", "sadness", .weak, "哀愁", "Pensiveness", "#87CEEB", 180, "😔"⟩,
  -- Disgust axis (225°)
  ⟨"disgust_strong", "disgust", .strong, "強い嫌悪", "Loathing", "#654321", 225, "🤮"⟩,
  ⟨"disgust_medium", "disgust", .medium, "嫌悪", "Disgust", "#8B4513", 225, "🤢"⟩,
  ⟨"disgust_weak", "disgust", .weak, "うんざり", "Boredom", "#D2B48C", 225, "😒"⟩,
  -- Anger axis (270°)
  ⟨"anger_strong", "anger", .strong, "激怒", "Rage", "#DC143C", 270, "😡"⟩,
  ⟨"anger_medium", "anger", .medium, "怒り", "Anger", "#FF4500", 270, "😠"⟩,
  ⟨"anger_weak", "anger", .weak, "苛立ち", "Annoyance", "#FF8C69", 270, "😤"⟩,
  -- Anticipation axis (315°)
  ⟨"anticipation_strong", "anticipation", .strong, "攻撃", "Vigilance", "#FF8C00", 315, "👁️"⟩,
  ⟨"anticipation_medium", "anticipation", .medium, "期待", "Anticipation", "#FFA500", 315, "🤔"⟩,
  ⟨"anticipation_weak", "anticipation", .weak, "関心", "Interest", "#FFCC99", 315, "🧐"⟩]

/-- `getEmotionById`: `PLUTCHIK_EMOTIONS_3_LAYER.find(e => e.id === id)`. -/
def getEmotionById (id : String) : Option PlutchikEmotion :=
  PLUTCHIK_EMOTIONS_3_LAYER.find? (fun emotion => emotion.id == id)

/-- The literal list `['weak', 'medium', 'strong']` used by
`calculateEmotionDistance` for `indexOf` on intensities. -/
def intensityLevels : List IntensityLevel := [.weak, .medium, .strong]

/-- The axis (angle) part of `calculateEmotionDistance`: the inner
`axisDistance` binding `min(angleDiff, 360 - angleDiff) / 45`. -/
def angleAxisDistance (emotion1 emotion2 : PlutchikEmotion) : ℚ :=
  let angleDiff := |emotion1.angle - emotion2.angle|
  min angleDiff (360 - angleDiff) / 45

/-- `calculateEmotionDistance` of `plutchikEmotions.ts`: angle-based axis
distance plus half of the intensity-index distance. -/
def calculateEmotionDistance (emotion1 emotion2 : PlutchikEmotion) : ℚ :=
  let axisDistance := angleAxisDistance emotion1 emotion2
  let intensity1Index : ℚ := intensityLevels.indexOf emotion1.intensity
  let intensity2Index : ℚ := intensityLevels.indexOf emotion2.intensity
  let intensityDistance := |intensity1Index - intensity2Index|
  axisDistance + intensityDistance * 0.5

/-- `AXIS_POSITIONS` of `plutchikScoring3Layer.ts` (wheel positions 0–7),
as an association list mirroring the `Record<string, number>`. -/
def AXIS_POSITIONS : List (String × ℕ) := [
  ("joy", 0), ("trust", 1), ("fear", 2), ("surprise", 3),
  ("sadness", 4), ("disgust", 5), ("anger", 6), ("anticipation", 7)]

/-- `INTENSITY_VALUES` of `plutchikScoring3Layer.ts` (total over the enum). -/
def INTENSITY_VALUES : IntensityLevel → ℕ
  | .weak => 0
  | .medium => 1
  | .strong => 2

/-- `calculateAxisDistance`: circular distance of the two axis positions;
`none` models the thrown `Invalid axis` error when a lookup fails. -/
def calculateAxisDistance (axis1 axis2 : String) : Option ℕ :=
  match AXIS_POSITIONS.lookup axis1, AXIS_POSITIONS.lookup axis2 with
  | some pos1, some pos2 =>
    if pos1 = pos2 then some 0
    else
      let directDistance := ((pos1 : ℤ) - (pos2 : ℤ)).natAbs
      let circularDistance := 8 - directDistance
      some (min directDistance circularDistance)
  | _, _ => none

/-- `calculateIntensityDistance`: absolute difference of intensity values. -/
def calculateIntensityDistance (intensity1 intensity2 : IntensityLevel) : ℕ :=
  ((INTENSITY_VALUES intensity1 : ℤ) - (INTENSITY_VALUES intensity2 : ℤ)).natAbs

/-- The `relationship` field of a scoring result.  The source uses string
literals; `exact` is a Lean keyword, so the constructor is `exact_`. -/
inductive Relationship
  | exact_
  | same_axis
  | adjacent_axis
  | opposite_axis
  | distant_axis
deriving DecidableEq, Repr

/-- The `intensityMatch` field of a scoring result. -/
inductive IntensityMatch
  | exact_
  | close
  | far
deriving DecidableEq, Repr

/-- `getAxisRelationship`: same axis, else classify by circular distance
(1 adjacent, 4 opposite, otherwise distant); `none` when an axis is invalid. -/
def getAxisRelationship (axis1 axis2 : String) : Option Relationship :=
  if axis1 = axis2 then some .same_axis
  else
    (calculateAxisDistance axis1 axis2).map fun distance =>
      match distance with
      | 1 => .adjacent_axis
      | 4 => .opposite_axis
      | _ => .distant_axis

/-- `getIntensityMatch`: classify the intensity distance (0 exact, 1 close,
otherwise far). -/
def getIntensityMatch (intensity1 intensity2 : IntensityLevel) : IntensityMatch :=
  match calculateIntensityDistance intensity1 intensity2 with
  | 0 => .exact_
  | 1 => .close
  | _ => .far

/-- JavaScript `Math.round`: round half up, `⌊x + 1/2⌋`. -/
def jsRound (x : ℚ) : ℤ := ⌊x + 1 / 2⌋

/-- `PlutchikScoringResult3Layer` of `plutchikScoring3Layer.ts`. -/
structure PlutchikScoringResult3Layer where
  score : ℚ
  axisDistance : ℕ
  intensityDistance : ℕ
  totalDistance : ℚ
  relationship : Relationship
  intensityMatch : IntensityMatch
  maxScore : ℚ
deriving DecidableEq, Repr

/-- The `switch (relationship)` block of `calculatePlutchikScore3Layer`
computing the non-exact `score`; branches absent from the source switch keep
the initial `let score = 0`. -/
def baseScore : Relationship → IntensityMatch → ℚ → ℚ
  | .same_axis, .close, maxScore => (jsRound (maxScore * 0.85) : ℚ)
  | .same_axis, .far, maxScore => (jsRound (maxScore * 0.70) : ℚ)
  | .same_axis, .exact_, _ => 0
  | .adjacent_axis, .exact_, maxScore => (jsRound (maxScore * 0.60) : ℚ)
  | .adjacent_axis, .close, maxScore => (jsRound (maxScore * 0.45) : ℚ)
  | .adjacent_axis, .far, maxScore => (jsRound (maxScore * 0.30) : ℚ)
  | .opposite_axis, .exact_, maxScore => (jsRound (maxScore * 0.10) : ℚ)
  | .opposite_axis, .close, maxScore => (jsRound (maxScore * 0.05) : ℚ)
  | .opposite_axis, .far, _ => 0
  | .distant_axis, .exact_, maxScore => (jsRound (maxScore * 0.25) : ℚ)
  | .distant_axis, .close, maxScore => (jsRound (maxScore * 0.15) : ℚ)
  | .distant_axis, .far, maxScore => (jsRound (maxScore * 0.05) : ℚ)
  | .exact_, _, _ => 0

/-- `calculatePlutchikScore3Layer`: exact match returns the full `maxScore`;
otherwise score by axis relationship and intensity match.  `none` models the
thrown `Invalid emotion IDs` / `Invalid axis` errors. -/
def calculatePlutchikScore3Layer (correctEmotionId guessedEmotionId : String)
    (maxScore : ℚ) : Option PlutchikScoringResult3Layer :=
  match getEmotionById correctEmotionId, getEmotionById guessedEmotionId with
  | some correctEmotion, some guessedEmotion =>
    if correctEmotionId = guessedEmotionId then
      some ⟨maxScore, 0, 0, 0, .exact_, .exact_, maxScore⟩
    else
      match calculateAxisDistance correctEmotion.axis guessedEmotion.axis,
            getAxisRelationship correctEmotion.axis guessedEmotion.axis with
      | some axisDistance, some relationship =>
        let intensityDistance :=
          calculateIntensityDistance correctEmotion.intensity guessedEmotion.intensity
        let totalDistance := calculateEmotionDistance correctEmotion guessedEmotion
        let intensityMatch :=
          getIntensityMatch correctEmotion.intensity guessedEmotion.intensity
        let score := baseScore relationship intensityMatch maxScore
        some ⟨score, axisDistance, intensityDistance, totalDistance,
              relationship, intensityMatch, maxScore⟩
      | _, _ => none
  | _, _ => none

/-- `calculateSpeakerBonus3Layer`: fold over `Object.values(votes)` (votes are
an insertion-ordered record, modelled as an association list), adding the full
3-layer score of each vote against the correct emotion with `basePoints` as
the maximum.  `none` when any vote id (or the target) is invalid. -/
def calculateSpeakerBonus3Layer (correctEmotionId : String)
    (votes : List (String × String)) (basePoints : ℚ) : Option ℚ :=
  votes.foldlM
    (fun totalBonus vote =>
      (calculatePlutchikScore3Layer correctEmotionId vote.2 basePoints).map
        (fun result => totalBonus + result.score))
    0

/-! ### Voice processing (hard mode), from `utils/voiceProcessing.ts` -/

/-- `VoiceProcessingPattern` of `types/game.ts`. -/
inductive VoiceProcessingPattern
  | fast_high
  | slow_low
  | pitch_up
  | tempo_up
  | emotion_reverse
deriving DecidableEq, Repr

/-- `VoiceProcessingConfig` of `types/game.ts`. -/
structure VoiceProcessingConfig where
  pattern : VoiceProcessingPattern
  pitch : ℚ
  tempo : ℚ
  description : String
deriving DecidableEq, Repr

/-- `VOICE_PROCESSING_PATTERNS`, the record keyed by pattern name. -/
def VOICE_PROCESSING_PATTERNS : VoiceProcessingPattern → VoiceProcessingConfig
  | .fast_high => ⟨.fast_high, 2.0, 1.5, "高速・高ピッチ（興奮・喜びの印象）"⟩
  | .slow_low => ⟨.slow_low, -3.0, 0.8, "低速・低ピッチ（落ち着いた・暗い印象）"⟩
  | .pitch_up => ⟨.pitch_up, 3.0, 1.0, "ピッチ上昇（可愛さ・軽快さ）"⟩
  | .tempo_up => ⟨.tempo_up, 0.0, 1.5, "テンポ上昇（緊張・焦り・興奮感）"⟩
  | .emotion_reverse => ⟨.emotion_reverse, 0.0, 1.0, "感情逆転変換（反対感情の音声特徴を模倣）"⟩

/-- `Object.values(VOICE_PROCESSING_PATTERNS)` in insertion order. -/
def voiceProcessingPatternValues : List VoiceProcessingConfig :=
  [VOICE_PROCESSING_PATTERNS .fast_high, VOICE_PROCESSING_PATTERNS .slow_low,
   VOICE_PROCESSING_PATTERNS .pitch_up, VOICE_PROCESSING_PATTERNS .tempo_up,
   VOICE_PROCESSING_PATTERNS .emotion_reverse]

/-- `EMOTION_REVERSAL_MAP`: per emotion id, the (pitch, tempo) pair of the
opposite emotion, as an association list mirroring the record. -/
def EMOTION_REVERSAL_MAP : List (String × (ℚ × ℚ)) := [
  -- Joy → Sadness
  ("joy", (-3.0, 0.8)), ("joy_strong", (-3.0, 0.8)),
  ("joy_medium", (-3.0, 0.8)), ("joy_weak", (-3.0, 0.8)),
  -- Anger → Fear
  ("anger", (-2.0, 0.85)), ("anger_strong", (-2.0, 0.85)),
  ("anger_medium", (-2.0, 0.85)), ("anger_weak", (-2.0, 0.85)),
  -- Trust → Disgust
  ("trust", (-1.5, 0.9)), ("trust_strong", (-1.5, 0.9)),
  ("trust_medium", (-1.5, 0.9)), ("trust_weak", (-1.5, 0.9)),
  -- Anticipation → Surprise
  ("anticipation", (2.0, 1.4)), ("anticipation_strong", (2.0, 1.4)),
  ("anticipation_medium", (2.0, 1.4)), ("anticipation_weak", (2.0, 1.4)),
  -- Fear → Anger
  ("fear", (2.0, 1.6)), ("fear_strong", (2.0, 1.6)),
  ("fear_medium", (2.0, 1.6)), ("fear_weak", (2.0, 1.6)),
  -- Sadness → Joy
  ("sadness", (3.0, 1.4)), ("sadness_strong", (3.0, 1.4)),
  ("sadness_medium", (3.0, 1.4)), ("sadness_weak", (3.0, 1.4)),
  -- Disgust → Trust
  ("disgust", (2.0, 1.2)), ("disgust_strong", (2.0, 1.2)),
  ("disgust_medium", (2.0, 1.2)), ("disgust_weak", (2.0, 1.2)),
  -- Surprise → Anticipation
  ("surprise", (-1.0, 0.9)), ("surprise_strong", (-1.0, 0.9)),
  ("surprise_medium", (-1.0, 0.9)), ("surprise_weak", (-1.0, 0.9))]

/-- `getVoiceProcessingForEmotion`: for a mapped emotion id, the
`emotion_reverse` pattern with the mapped pitch/tempo; otherwise a random
non-reverse pattern.  `Math.floor(Math.random() * patterns.length)` is
modelled by the extra argument `rand`, reduced modulo the pattern count. -/
def getVoiceProcessingForEmotion (emotionId : String) (rand : ℕ) :
    VoiceProcessingConfig :=
  match EMOTION_REVERSAL_MAP.lookup emotionId with
  | some reversal =>
    ⟨.emotion_reverse, reversal.1, reversal.2,
     "感情逆転変換（" ++ emotionId ++ " → 反対感情）"⟩
  | none =>
    -- Fallback to a random pattern if emotion not found
    let patterns := voiceProcessingPatternValues.filter
      (fun p => p.pattern ≠ .emotion_reverse)
    patterns.getD (rand % patterns.length) (VOICE_PROCESSING_PATTERNS .fast_high)

/-! ### Player identity persistence, from `utils/playerStorage.ts` -/

/-- The browser `localStorage` slice touched by `playerStorage.ts`: the
values stored under `emoguchi_player_id` and `emoguchi_player_name`. -/
structure BrowserStorage where
  playerId : Option String
  playerName : Option String
deriving DecidableEq, Repr

/-- JavaScript truthiness of `localStorage.getItem`'s `string | null`
result: `null` and the empty string are falsy. -/
def jsTruthyStr : Option String → Bool
  | some s => s ≠ ""
  | none => false

/-- `getOrCreatePlayerId`: outside the browser (`hasWindow = false`) return a
fresh random id without persisting; in the browser return the stored id, or
create, persist and return `freshUUID` (modelling `crypto.randomUUID()`). -/
def getOrCreatePlayerId (hasWindow : Bool) (freshUUID : String)
    (storage : BrowserStorage) : String × BrowserStorage :=
  if !hasWindow then (freshUUID, storage)
  else
    match storage.playerId with
    | some playerId =>
      if playerId = "" then
        -- `if (!playerId)`: the empty string is falsy, so a new id is created
        (freshUUID, { storage with playerId := some freshUUID })
      else (playerId, storage)
    | none => (freshUUID, { storage with playerId := some freshUUID })

/-- `savePlayerName`: store the name (no-op outside the browser). -/
def savePlayerName (name : String) (hasWindow : Bool)
    (storage : BrowserStorage) : BrowserStorage :=
  if hasWindow then { storage with playerName := some name } else storage

/-- The `join_room` payload emitted by `useSocket.joinRoom`. -/
structure JoinRoomMsg where
  roomId : String
  playerName : String
  playerId : String
deriving DecidableEq, Repr

/-- `useSocket.joinRoom`: obtain the persisted player id, save the name, then
emit `join_room` carrying room id, player name and that player id. -/
def joinRoom (roomId playerName : String) (hasWindow : Bool)
    (freshUUID : String) (storage : BrowserStorage) :
    JoinRoomMsg × BrowserStorage :=
  let idAndStorage := getOrCreatePlayerId hasWindow freshUUID storage
  let storage2 := savePlayerName playerName hasWindow idAndStorage.2
  (⟨roomId, playerName, idAndStorage.1⟩, storage2)

/-! ### Game store state (`stores/gameStore.ts`) and the socket event
handlers of `hooks/useSocket.ts`, as a step relation on the store. -/

/-- `GamePhase` of `types/game.ts`. -/
inductive GamePhase
  | waiting
  | in_round
  | result
  | closed
deriving DecidableEq, Repr

/-- `GameMode` of `types/game.ts`. -/
inductive GameMode
  | basic
  | advanced
  | wheel
deriving DecidableEq, Repr

/-- `VoteType` of `types/game.ts`. -/
inductive VoteType
  | fourChoice
  | eightChoice
  | wheel
deriving DecidableEq, Repr

/-- `SpeakerOrder` of `types/game.ts`. -/
inductive SpeakerOrder
  | random
  | sequential
deriving DecidableEq, Repr

/-- `RoomConfig` of `types/game.ts`. -/
structure RoomConfig where
  mode : GameMode
  vote_type : VoteType
  speaker_order : SpeakerOrder
  vote_timeout : ℕ
  max_rounds : ℕ
  hard_mode : Option Bool
deriving DecidableEq, Repr

/-- One element of `RoomState.players`: `PlayerInfo | string`. -/
inductive PlayersItem
  | info (name : String) (score : ℚ)
  | nameOnly (name : String)
deriving DecidableEq, Repr

/-- `RoomState` of `types/game.ts` (the `room_state` broadcast payload). -/
structure RoomState where
  roomId : String
  players : List PlayersItem
  phase : GamePhase
  config : RoomConfig
  currentSpeaker : Option String
deriving DecidableEq, Repr

/-- `EmotionChoice` of `types/game.ts`. -/
structure EmotionChoice where
  id : String
  name : String
deriving DecidableEq, Repr

/-- `Round` of `types/game.ts` (the client-side view of the active round). -/
structure Round where
  id : String
  phrase : String
  emotion_id : String
  speaker_name : String
  voting_choices : Option (List EmotionChoice)
  wheel_mode : Option Bool
deriving DecidableEq, Repr

/-- `RoundResult` of `types/game.ts` (the `round_result` payload). -/
structure RoundResult where
  round_id : String
  correct_emotion : String
  correctEmotionId : Option String
  speaker_name : String
  scores : List (String × ℚ)
  votes : List (String × String)
  isGameComplete : Option Bool
  completedRounds : Option ℕ
  maxRounds : Option ℕ
  completedCycles : Option ℕ
  maxCycles : Option ℕ
deriving DecidableEq, Repr

/-- One ranking entry of `GameComplete`. -/
structure RankingEntry where
  name : String
  score : ℚ
  rank : ℕ
deriving DecidableEq, Repr

/-- `GameComplete` of `types/game.ts`. -/
structure GameComplete where
  isComplete : Bool
  rankings : List RankingEntry
  totalRounds : ℕ
  totalCycles : Option ℕ
  finalScores : Option (List (String × ℚ))
deriving DecidableEq, Repr

/-- The `voteTimer` slice of the game store. -/
structure VoteTimerState where
  startTime : Option String
  timeoutSeconds : ℕ
  isActive : Bool
deriving DecidableEq, Repr

/-- The zustand game store state (`stores/gameStore.ts`).  `audioRecording`
(a `Blob`) is modelled as an optional byte list. -/
structure GameStore where
  roomState : Option RoomState
  isConnected : Bool
  playerName : String
  hostToken : String
  currentRound : Option Round
  speakerEmotion : Option String
  playerVote : Option String
  lastResult : Option RoundResult
  gameComplete : Option GameComplete
  audioRecording : Option (List ℕ)
  audioUrl : Option String
  recordingInProgress : Bool
  isAudioProcessed : Bool
  isLoading : Bool
  error : Option String
  voteTimer : VoteTimerState
deriving DecidableEq, Repr

/-- The store's initial state. -/
def initialGameStore : GameStore where
  roomState := none
  isConnected := false
  playerName := ""
  hostToken := ""
  currentRound := none
  speakerEmotion := none
  playerVote := none
  lastResult := none
  gameComplete := none
  audioRecording := none
  audioUrl := none
  recordingInProgress := false
  isAudioProcessed := false
  isLoading := false
  error := none
  voteTimer := ⟨none, 30, false⟩

/-- Store action `setRoomState`. -/
def setRoomState (state : RoomState) (s : GameStore) : GameStore :=
  { s with roomState := some state }

/-- Store action `setConnected`. -/
def setConnected (connected : Bool) (s : GameStore) : GameStore :=
  { s with isConnected := connected }

/-- Store action `setCurrentRound`: installs the round AND clears the stored
player vote (`set({ currentRound: round, playerVote: null })`). -/
def setCurrentRound (round : Option Round) (s : GameStore) : GameStore :=
  { s with currentRound := round, playerVote := none }

/-- Store action `setSpeakerEmotion`. -/
def setSpeakerEmotion (emotion : Option String) (s : GameStore) : GameStore :=
  { s with speakerEmotion := emotion }

/-- Store action `setPlayerVote`. -/
def setPlayerVote (vote : Option String) (s : GameStore) : GameStore :=
  { s with playerVote := vote }

/-- Store action `setLastResult`. -/
def setLastResult (result : Option RoundResult) (s : GameStore) : GameStore :=
  { s with lastResult := result }

/-- Store action `setGameComplete`. -/
def setGameComplete (gameComplete : Option GameComplete) (s : GameStore) :
    GameStore :=
  { s with gameComplete := gameComplete }

/-- Store action `setAudioUrl`. -/
def setAudioUrl (url : Option String) (s : GameStore) : GameStore :=
  { s with audioUrl := url }

/-- Store action `setAudioProcessed`. -/
def setAudioProcessed (processed : Bool) (s : GameStore) : GameStore :=
  { s with isAudioProcessed := processed }

/-- Store action `setError`. -/
def setError (error : Option String) (s : GameStore) : GameStore :=
  { s with error := error }

/-- Store action `setVoteTimer`: records start time and timeout and marks the
timer active exactly when the start time is non-null. -/
def setVoteTimer (startTime : Option String) (timeoutSeconds : ℕ := 30)
    (s : GameStore) : GameStore :=
  { s with voteTimer := ⟨startTime, timeoutSeconds, startTime ≠ none⟩ }

/-- Store action `stopVoteTimer`: only clears the `isActive` flag. -/
def stopVoteTimer (s : GameStore) : GameStore :=
  { s with voteTimer := { s.voteTimer with isActive := false } }

/-- Store action `reset`: back to the initial state. -/
def resetStore (_ : GameStore) : GameStore := initialGameStore

/-- Truthiness of an optional boolean payload flag (`data.flag ||`-style). -/
def jsTruthyBool : Option Bool → Bool
  | some b => b
  | none => false

/-- Truthiness of an optional numeric payload field: `undefined` and `0` are
falsy. -/
def jsTruthyNat : Option ℕ → Bool
  | some n => n ≠ 0
  | none => false

/-- Payload of the `round_start` event. -/
structure RoundStartPayload where
  roundId : String
  phrase : String
  speakerName : String
  votingChoices : Option (List EmotionChoice)
deriving DecidableEq, Repr

/-- Payload of the `speaker_emotion` event (`emotion` is the Japanese name,
preferred over `emotionId` by the handler). -/
structure SpeakerEmotionPayload where
  roundId : String
  emotionId : String
  emotion : Option String
deriving DecidableEq, Repr

/-- Payload of the `game_complete` event; the handler defaults every absent
field. -/
structure GameCompletePayload where
  rankings : Option (List RankingEntry)
  totalRounds : Option ℕ
  totalCycles : Option ℕ
  finalScores : Option (List (String × ℚ))
deriving DecidableEq, Repr

/-- Payload of the `audio_received` event.  `decodeOk` models whether the
`Blob`/object-URL conversion inside the handler's `try` block succeeds. -/
structure AudioReceivedPayload where
  audio : List ℕ
  speaker_name : String
  is_processed : Option Bool
  voting_started_at : Option String
  vote_timeout_seconds : Option ℕ
  decodeOk : Bool
deriving DecidableEq, Repr

/-- Abstract model of `URL.createObjectURL` on the received audio bytes. -/
def mkObjectURL (audio : List ℕ) : String :=
  "blob:audio-" ++ toString audio.length

/-- `socket.on('room_state')`: store the broadcast state; when the phase is
`waiting`, additionally clear game-complete state and audio. -/
def handleRoomState (data : RoomState) (s : GameStore) : GameStore :=
  let s1 := setRoomState data s
  if data.phase = .waiting then
    setAudioProcessed false (setAudioUrl none (setGameComplete none s1))
  else s1

/-- `socket.on('round_start')`: build the client round view (emotion hidden,
`votingChoices || []`), install it, and clear last result, audio and error. -/
def handleRoundStart (data : RoundStartPayload) (s : GameStore) : GameStore :=
  let round : Round :=
    ⟨data.roundId, data.phrase, "", data.speakerName,
     some (data.votingChoices.getD []), none⟩
  setError none (setAudioProcessed false (setAudioUrl none
    (setLastResult none (setCurrentRound (some round) s))))

/-- `socket.on('speaker_emotion')`: store `data.emotion || data.emotionId`. -/
def handleSpeakerEmotion (data : SpeakerEmotionPayload) (s : GameStore) :
    GameStore :=
  let emotionToSet :=
    match data.emotion with
    | some e => if e = "" then data.emotionId else e
    | none => data.emotionId
  setSpeakerEmotion (some emotionToSet) s

/-- `socket.on('round_result')`: record the result, drop the current round
and speaker emotion, stop the vote timer; when the game is not complete and a
room state is stored, locally set its phase to `waiting`. -/
def handleRoundResult (data : RoundResult) (s : GameStore) : GameStore :=
  let s1 := stopVoteTimer (setSpeakerEmotion none
    (setCurrentRound none (setLastResult (some data) s)))
  if jsTruthyBool data.isGameComplete then s1
  else
    match s1.roomState with
    | some currentRoomState =>
      setRoomState { currentRoomState with phase := .waiting } s1
    | none => s1

/-- `socket.on('game_complete')`: normalize the payload, store it, and when a
room state is stored locally set its phase to `closed`. -/
def handleGameComplete (data : GameCompletePayload) (s : GameStore) :
    GameStore :=
  let gameCompleteData : GameComplete :=
    ⟨true, data.rankings.getD [], data.totalRounds.getD 0,
     some (data.totalCycles.getD 0), some (data.finalScores.getD [])⟩
  let s1 := setGameComplete (some gameCompleteData) s
  match s1.roomState with
  | some currentRoomState =>
    setRoomState { currentRoomState with phase := .closed } s1
  | none => s1

/-- `socket.on('audio_received')`: clear errors; on successful decoding store
the object URL and processed flag and, when both timer fields are truthy,
start the vote timer; on a decoding exception only set the error message. -/
def handleAudioReceived (data : AudioReceivedPayload) (s : GameStore) :
    GameStore :=
  let s1 := setError none s
  if data.decodeOk then
    let s2 := setAudioProcessed (jsTruthyBool data.is_processed)
      (setAudioUrl (some (mkObjectURL data.audio)) s1)
    if jsTruthyStr data.voting_started_at ∧ jsTruthyNat data.vote_timeout_seconds then
      setVoteTimer data.voting_started_at (data.vote_timeout_seconds.getD 30) s2
    else s2
  else setError (some "音声データの処理に失敗しました") s1

/-- `socket.on('vote_timeout')`: show the message (the delayed auto-clear is
asynchronous and not part of the step relation). -/
def handleVoteTimeout (message : String) (s : GameStore) : GameStore :=
  setError (some message) s

/-- `socket.on('error')`: show `code: message`. -/
def handleErrorEvent (code message : String) (s : GameStore) : GameStore :=
  setError (some (code ++ ": " ++ message)) s

/-- One client-side event processed by the `useSocket` handlers; `localVote`
is the page's own `setPlayerVote` call when the user submits a vote, and the
`player_*` events only log, leaving the store unchanged. -/
inductive ClientEvent
  | connectEv
  | disconnectEv
  | connectErrorEv (message : String)
  | roomStateEv (data : RoomState)
  | playerJoinedEv (playerName : String)
  | playerReconnectedEv (playerName : String)
  | playerLeftEv (playerName : String)
  | leftRoomEv
  | playerDisconnectedEv (playerName : String)
  | roundStartEv (data : RoundStartPayload)
  | speakerEmotionEv (data : SpeakerEmotionPayload)
  | roundResultEv (data : RoundResult)
  | gameCompleteEv (data : GameCompletePayload)
  | audioReceivedEv (data : AudioReceivedPayload)
  | voteTimeoutEv (message : String)
  | errorEv (code message : String)
  | localVoteEv (emotionId : String)
deriving DecidableEq, Repr

/-- The step relation of the client store: how processing one event
transforms the store state. -/
def step (e : ClientEvent) (s : GameStore) : GameStore :=
  match e with
  | .connectEv => setError none (setConnected true s)
  | .disconnectEv => setConnected false s
  | .connectErrorEv message =>
    setError (some ("Connection failed: " ++ message)) s
  | .roomStateEv data => handleRoomState data s
  | .playerJoinedEv _ => s
  | .playerReconnectedEv _ => s
  | .playerLeftEv _ => s
  | .leftRoomEv => resetStore s
  | .playerDisconnectedEv _ => s
  | .roundStartEv data => handleRoundStart data s
  | .speakerEmotionEv data => handleSpeakerEmotion data s
  | .roundResultEv data => handleRoundResult data s
  | .gameCompleteEv data => handleGameComplete data s
  | .audioReceivedEv data => handleAudioReceived data s
  | .voteTimeoutEv message => handleVoteTimeout message s
  | .errorEv code message => handleErrorEvent code message s
  | .localVoteEv emotionId => setPlayerVote (some emotionId) s

/-- Run a sequence of client events from the initial store state. -/
def runEvents (events : List ClientEvent) : GameStore :=
  events.foldl (fun s e => step e s) initialGameStore

/-- The score fraction of each branch of the score switch in
`calculatePlutchikScore3Layer` (0 for the branches the switch omits), used to
state `baseScore rel im m = round(coeff * m)`. -/
def baseCoeff : Relationship → IntensityMatch → ℚ
  | .same_axis, .close => 0.85
  | .same_axis, .far => 0.70
  | .same_axis, .exact_ => 0
  | .adjacent_axis, .exact_ => 0.60
  | .adjacent_axis, .close => 0.45
  | .adjacent_axis, .far => 0.30
  | .opposite_axis, .exact_ => 0.10
  | .opposite_axis, .close => 0.05
  | .opposite_axis, .far => 0
  | .distant_axis, .exact_ => 0.25
  | .distant_axis, .close => 0.15
  | .distant_axis, .far => 0.05
  | .exact_, _ => 0

/-! ## Helper lemmas -/

theorem baseScore_eq (rel : Relationship) (im : IntensityMatch) (m : ℚ) :
    baseScore rel im m = (jsRound (baseCoeff rel im * m) : ℚ) := by
  cases rel <;> cases im <;> simp [baseScore, baseCoeff, jsRound, mul_comm] <;> norm_num

theorem baseCoeff_nonneg (rel : Relationship) (im : IntensityMatch) :
    0 ≤ baseCoeff rel im := by
  cases rel <;> cases im <;> norm_num [baseCoeff]

theorem baseCoeff_le (rel : Relationship) (im : IntensityMatch) :
    baseCoeff rel im ≤ 85 / 100 := by
  cases rel <;> cases im <;> norm_num [baseCoeff]

theorem jsRound_cast_nonneg (x : ℚ) (hx : 0 ≤ x) : (0 : ℚ) ≤ (jsRound x : ℚ) := by
  have h : (0 : ℤ) ≤ jsRound x := Int.le_floor.mpr (by push_cast; linarith)
  exact_mod_cast h

theorem jsRound_cast_le_nat (c : ℚ) (m : ℕ) (_h0 : 0 ≤ c) (h1 : c ≤ 1) :
    (jsRound (c * m) : ℚ) ≤ (m : ℚ) := by
  have hm : (0 : ℚ) ≤ (m : ℚ) := Nat.cast_nonneg m
  have h : jsRound (c * m) < (m : ℤ) + 1 := by
    rw [jsRound]
    apply Int.floor_lt.mpr
    push_cast
    nlinarith
  have h2 : jsRound (c * m) ≤ (m : ℤ) := by omega
  exact_mod_cast h2

theorem jsRound_cast_lt_nat (c : ℚ) (m : ℕ) (hc : c ≤ 85 / 100) (hm : 4 ≤ m) :
    (jsRound (c * m) : ℚ) < (m : ℚ) := by
  have hm4 : (4 : ℚ) ≤ (m : ℚ) := by exact_mod_cast hm
  have h : jsRound (c * m) < (m : ℤ) := by
    rw [jsRound]
    apply Int.floor_lt.mpr
    push_cast
    nlinarith
  exact_mod_cast h

theorem calculateAxisDistance_comm (axis1 axis2 : String) :
    calculateAxisDistance axis1 axis2 = calculateAxisDistance axis2 axis1 := by
  unfold calculateAxisDistance
  cases h1 : AXIS_POSITIONS.lookup axis1 <;> cases h2 : AXIS_POSITIONS.lookup axis2 <;> simp
  next p1 p2 =>
    rcases eq_or_ne p1 p2 with h | h
    · simp [h]
    · rw [if_neg h, if_neg (Ne.symm h)]
      have habs : ((p1 : ℤ) - p2).natAbs = ((p2 : ℤ) - p1).natAbs := by omega
      rw [habs]

theorem calculateIntensityDistance_comm (i1 i2 : IntensityLevel) :
    calculateIntensityDistance i1 i2 = calculateIntensityDistance i2 i1 := by
  unfold calculateIntensityDistance
  omega

theorem getAxisRelationship_comm (axis1 axis2 : String) :
    getAxisRelationship axis1 axis2 = getAxisRelationship axis2 axis1 := by
  unfold getAxisRelationship
  by_cases h : axis1 = axis2
  · simp [h]
  · rw [if_neg h, if_neg (Ne.symm h), calculateAxisDistance_comm]

theorem getIntensityMatch_comm (i1 i2 : IntensityLevel) :
    getIntensityMatch i1 i2 = getIntensityMatch i2 i1 := by
  unfold getIntensityMatch
  rw [calculateIntensityDistance_comm]

theorem getEmotionById_mem {id : String} {e : PlutchikEmotion}
    (h : getEmotionById id = some e) : e ∈ PLUTCHIK_EMOTIONS_3_LAYER :=
  List.mem_of_find?_eq_some h

/-- Every listed emotion has a valid axis, with position below 8 and the
record's angle equal to 45° times the position. -/
theorem emotion_axis_angle_spec :
    ∀ e ∈ PLUTCHIK_EMOTIONS_3_LAYER,
      ∃ p, AXIS_POSITIONS.lookup e.axis = some p ∧ p < 8 ∧ e.angle = 45 * p := by
  intro e he
  fin_cases he <;> exact ⟨_, rfl, by norm_num, by norm_num⟩

/-- Arithmetic core of the angle/position distance agreement. -/
theorem axisDistance_angle_eq (p1 p2 : ℕ) (h1 : p1 < 8) (h2 : p2 < 8) :
    min |45 * (p1 : ℚ) - 45 * p2| (360 - |45 * (p1 : ℚ) - 45 * p2|) / 45 =
      ((if p1 = p2 then (0 : ℕ)
        else min ((p1 : ℤ) - p2).natAbs (8 - ((p1 : ℤ) - p2).natAbs)) : ℚ) := by
  have hd8 : ((p1 : ℤ) - p2).natAbs ≤ 8 := by omega
  have hsub : (45 : ℚ) * p1 - 45 * p2 = 45 * (((p1 : ℤ) - p2 : ℤ) : ℚ) := by
    push_cast; ring
  have habs : |45 * (p1 : ℚ) - 45 * p2| = 45 * ((((p1 : ℤ) - p2).natAbs : ℕ) : ℚ) := by
    rw [hsub, abs_mul, abs_of_nonneg (by norm_num : (0:ℚ) ≤ 45), Int.cast_natAbs,
      Int.cast_abs]
  rw [habs]
  have h360 : (360 : ℚ) - 45 * ((((p1 : ℤ) - p2).natAbs : ℕ) : ℚ) =
      45 * (((8 - ((p1 : ℤ) - p2).natAbs : ℕ) : ℕ) : ℚ) := by
    rw [Nat.cast_sub hd8]; push_cast; ring
  rw [h360]
  rw [← mul_min_of_nonneg _ _ (by norm_num : (0:ℚ) ≤ 45)]
  rw [mul_div_cancel_left₀ _ (by norm_num : (45:ℚ) ≠ 0)]
  rw [← Nat.cast_min]
  by_cases hp : p1 = p2
  · subst hp; norm_num
  · rw [if_neg hp]
    push_cast [Nat.cast_sub hd8]
    rfl

theorem calcScore_exact (c : String) (ec : PlutchikEmotion) (m : ℚ)
    (hc : getEmotionById c = some ec) :
    calculatePlutchikScore3Layer c c m = some ⟨m, 0, 0, 0, .exact_, .exact_, m⟩ := by
  simp [calculatePlutchikScore3Layer, hc]

theorem calcScore_nonexact (c g : String) (ec eg : PlutchikEmotion) (m : ℚ)
    (hc : getEmotionById c = some ec) (hg : getEmotionById g = some eg) (hne : c ≠ g)
    (dist : ℕ) (rel : Relationship)
    (hdist : calculateAxisDistance ec.axis eg.axis = some dist)
    (hrel : getAxisRelationship ec.axis eg.axis = some rel) :
    calculatePlutchikScore3Layer c g m =
      some ⟨baseScore rel (getIntensityMatch ec.intensity eg.intensity) m, dist,
        calculateIntensityDistance ec.intensity eg.intensity,
        calculateEmotionDistance ec eg, rel,
        getIntensityMatch ec.intensity eg.intensity, m⟩ := by
  simp only [calculatePlutchikScore3Layer, hc, hg, hdist, hrel, if_neg hne]

theorem axisDistance_defined (ec eg : PlutchikEmotion) (p1 p2 : ℕ)
    (hl1 : AXIS_POSITIONS.lookup ec.axis = some p1)
    (hl2 : AXIS_POSITIONS.lookup eg.axis = some p2) :
    ∃ dist, calculateAxisDistance ec.axis eg.axis = some dist := by
  unfold calculateAxisDistance
  rw [hl1, hl2]
  by_cases hp : p1 = p2 <;> simp [hp]

theorem axisRelationship_defined (ec eg : PlutchikEmotion) (dist : ℕ)
    (hdist : calculateAxisDistance ec.axis eg.axis = some dist) :
    ∃ rel, getAxisRelationship ec.axis eg.axis = some rel := by
  unfold getAxisRelationship
  by_cases ha : ec.axis = eg.axis <;> simp [ha, hdist]

theorem calcScore_isSome (c g : String) (ec eg : PlutchikEmotion) (m : ℚ)
    (hc : getEmotionById c = some ec) (hg : getEmotionById g = some eg) :
    (calculatePlutchikScore3Layer c g m).isSome = true := by
  by_cases hcg : c = g
  · subst hcg
    rw [calcScore_exact c ec m hc]
    rfl
  · obtain ⟨p1, hl1, _, _⟩ := emotion_axis_angle_spec ec (getEmotionById_mem hc)
    obtain ⟨p2, hl2, _, _⟩ := emotion_axis_angle_spec eg (getEmotionById_mem hg)
    obtain ⟨dist, hdist⟩ := axisDistance_defined ec eg p1 p2 hl1 hl2
    obtain ⟨rel, hrel⟩ := axisRelationship_defined ec eg dist hdist
    rw [calcScore_nonexact c g ec eg m hc hg hcg dist rel hdist hrel]
    rfl

theorem speakerBonus_foldlM (E : String) (b : ℚ) :
    ∀ (votes : List (String × String)) (acc : ℚ),
      (∀ v ∈ votes, (calculatePlutchikScore3Layer E v.2 b).isSome = true) →
      votes.foldlM (fun totalBonus vote =>
          (calculatePlutchikScore3Layer E vote.2 b).map
            (fun result => totalBonus + result.score)) acc =
        some (acc + (votes.map (fun v =>
          ((calculatePlutchikScore3Layer E v.2 b).map (fun r => r.score)).getD 0)).sum) := by
  intro votes
  induction votes with
  | nil => intro acc _; simp
  | cons v vs ih =>
    intro acc h
    have hv := h v (List.mem_cons_self v vs)
    rw [Option.isSome_iff_exists] at hv
    obtain ⟨r, hr⟩ := hv
    rw [List.foldlM_cons]
    simp only [hr, Option.map_some', Option.bind_some]
    rw [show ((some (acc + r.score) >>= fun acc2 => List.foldlM _ acc2 vs) =
      List.foldlM _ (acc + r.score) vs) from rfl]
    rw [ih (acc + r.score) (fun w hw => h w (List.mem_cons_of_mem v hw))]
    simp only [List.map_cons, List.sum_cons, hr, Option.map_some', Option.getD_some]
    congr 1
    ring

theorem handleRoundResult_voteTimer_inactive (d : RoundResult) (s : GameStore) :
    (handleRoundResult d s).voteTimer.isActive = false := by
  simp only [handleRoundResult, stopVoteTimer, setSpeakerEmotion, setCurrentRound,
    setLastResult, setRoomState]
  split
  · rfl
  · split <;> rfl

theorem handleGameComplete_voteTimer (d : GameCompletePayload) (s : GameStore) :
    (handleGameComplete d s).voteTimer = s.voteTimer := by
  simp only [handleGameComplete, setGameComplete, setRoomState]
  split <;> rfl

theorem handleRoomState_voteTimer (d : RoomState) (s : GameStore) :
    (handleRoomState d s).voteTimer = s.voteTimer := by
  simp only [handleRoomState, setAudioProcessed, setAudioUrl, setGameComplete, setRoomState]
  split <;> rfl

theorem handleAudioReceived_voteTimer (d : AudioReceivedPayload) (s : GameStore) :
    (handleAudioReceived d s).voteTimer = s.voteTimer ∨
    (jsTruthyStr d.voting_started_at = true ∧ jsTruthyNat d.vote_timeout_seconds = true ∧
      (handleAudioReceived d s).voteTimer =
        ⟨d.voting_started_at, d.vote_timeout_seconds.getD 30,
         decide (d.voting_started_at ≠ none)⟩) := by
  simp only [handleAudioReceived, setError, setAudioProcessed, setAudioUrl, setVoteTimer]
  split
  · split
    · next h => exact Or.inr ⟨h.1, h.2, rfl⟩
    · exact Or.inl rfl
  · exact Or.inl rfl

/-! ## Claim theorems -/

/-- C1 (counterexample): the speaker-bonus computation does NOT award credit
only for votes exactly equal to the target emotion: with target `joy_medium`
and the single vote `trust_medium` (an adjacent-axis, same-intensity guess),
`calculateSpeakerBonus3Layer` awards 6 of the 10 base points even though no
vote equals the target. -/
theorem speakerBonus_partial_credit_counterexample :
    calculateSpeakerBonus3Layer "joy_medium" [("p1", "trust_medium")] 10 = some 6 ∧
    ("trust_medium" : String) ≠ "joy_medium" ∧ (6 : ℚ) ≠ 0 := by
  have hc : getEmotionById "joy_medium" =
      some ⟨"joy_medium", "joy", .medium, "喜び", "Joy", "#FFE55C", 0, "😊"⟩ := rfl
  have hg : getEmotionById "trust_medium" =
      some ⟨"trust_medium", "trust", .medium, "信頼", "Trust", "#90EE90", 45, "😊"⟩ := rfl
  have had : calculateAxisDistance "joy" "trust" = some 1 := rfl
  have hrel : getAxisRelationship "joy" "trust" = some .adjacent_axis := rfl
  refine ⟨?_, by decide, by norm_num⟩
  rw [calculateSpeakerBonus3Layer, List.foldlM_cons]
  rw [calcScore_nonexact "joy_medium" "trust_medium" _ _ _ hc hg (by decide) 1
    .adjacent_axis had hrel]
  simp only [Option.map_some', Option.bind_some, List.foldlM_nil,
    getIntensityMatch, calculateIntensityDistance, INTENSITY_VALUES]
  norm_num [baseScore, jsRound]

/-- C1 (amended): for a valid target emotion and valid votes, the speaker
bonus equals the sum over the vote set of the full Plutchik 3-layer score of
each vote against the target with `basePoints` as the maximum, and every vote
exactly equal to the target contributes exactly `basePoints` (equal credit
per correct vote); near-miss votes may also contribute partial credit. -/
theorem speakerBonus_sums_plutchik_scores :
    ∀ (correctEmotionId : String) (votes : List (String × String)) (basePoints : ℚ),
    (getEmotionById correctEmotionId).isSome = true →
    (∀ v ∈ votes, (getEmotionById v.2).isSome = true) →
    calculateSpeakerBonus3Layer correctEmotionId votes basePoints =
      some ((votes.map (fun v =>
        ((calculatePlutchikScore3Layer correctEmotionId v.2 basePoints).map
          (fun r => r.score)).getD 0)).sum) ∧
    (∀ v ∈ votes, v.2 = correctEmotionId →
      ((calculatePlutchikScore3Layer correctEmotionId v.2 basePoints).map
        (fun r => r.score)).getD 0 = basePoints) := by
  intro E votes b hE hv
  rw [Option.isSome_iff_exists] at hE
  obtain ⟨eE, hcE⟩ := hE
  have hsome : ∀ v ∈ votes, (calculatePlutchikScore3Layer E v.2 b).isSome = true := by
    intro v hvmem
    have hvi := hv v hvmem
    rw [Option.isSome_iff_exists] at hvi
    obtain ⟨ev, hev⟩ := hvi
    exact calcScore_isSome E v.2 eE ev b hcE hev
  constructor
  · rw [calculateSpeakerBonus3Layer, speakerBonus_foldlM E b votes 0 hsome, zero_add]
  · intro v hvmem hveq
    rw [hveq, calcScore_exact E eE b hcE]
    rfl

/-- C1 (witness): the amended statement holds at target `joy_medium` with one
exact vote and one adjacent vote at 10 base points. -/
theorem speakerBonus_sums_plutchik_scores_witness :
    calculateSpeakerBonus3Layer "joy_medium" [("p1", "joy_medium"), ("p2", "trust_medium")] 10 =
      some (([("p1", "joy_medium"), ("p2", "trust_medium")].map (fun v =>
        ((calculatePlutchikScore3Layer "joy_medium" v.2 10).map
          (fun r => r.score)).getD 0)).sum) ∧
    (∀ v ∈ [("p1", "joy_medium"), ("p2", "trust_medium")], v.2 = "joy_medium" →
      ((calculatePlutchikScore3Layer "joy_medium" v.2 10).map
        (fun r => r.score)).getD 0 = 10) :=
  speakerBonus_sums_plutchik_scores "joy_medium"
    [("p1", "joy_medium"), ("p2", "trust_medium")] 10 rfl
    (by intro v hv; fin_cases hv <;> rfl)

/-- C2 (counterexample): the client store reaches a state where a
`currentRound` is present but the stored phase is not `in_round`: processing
`round_start` from the initial state installs a round without touching the
phase at all (no room state is stored, hence no phase equals `in_round`). -/
theorem phase_currentRound_iff_counterexample :
    (runEvents [.roundStartEv ⟨"r1", "hello", "alice", none⟩]).currentRound.isSome = true ∧
    (runEvents [.roundStartEv ⟨"r1", "hello", "alice", none⟩]).roomState = none :=
  ⟨rfl, rfl⟩

/-- C2 (amended): processing `round_start` installs a `currentRound` but
leaves the stored room state (and thus the phase) unchanged, and processing
`round_result` removes the `currentRound`; the phase = `in_round` ↔
`currentRound` present equivalence does not hold of the client store. -/
theorem round_start_result_currentRound_phase :
    ∀ (p : RoundStartPayload) (d : RoundResult) (s : GameStore),
      ((step (.roundStartEv p) s).currentRound).isSome = true ∧
      (step (.roundStartEv p) s).roomState = s.roomState ∧
      (step (.roundResultEv d) s).currentRound = none := by
  intro p d s
  refine ⟨rfl, rfl, ?_⟩
  simp only [step, handleRoundResult, stopVoteTimer, setSpeakerEmotion, setCurrentRound,
    setLastResult, setRoomState]
  split
  · rfl
  · split <;> rfl

/-- C3 (counterexample): the vote timer is NOT always inactive after
processing `round_start`: if an `audio_received` event carrying timer
information is processed and then a `round_start` arrives, the timer is still
active, because the `round_start` handler never stops it. -/
theorem vote_timer_active_after_round_start_counterexample :
    (runEvents [.audioReceivedEv ⟨[1], "alice", none, some "t0", some 30, true⟩,
      .roundStartEv ⟨"r1", "hi", "alice", none⟩]).voteTimer.isActive = true :=
  rfl

/-- C3 (amended): processing `round_start` leaves the vote timer exactly as
it was (neither starting nor stopping it), and the only event that activates
an inactive vote timer is an `audio_received` event whose payload carries
truthy `voting_started_at` and `vote_timeout_seconds` fields. -/
theorem vote_timer_activation_only_audio_received :
    (∀ (p : RoundStartPayload) (s : GameStore),
      (step (.roundStartEv p) s).voteTimer = s.voteTimer) ∧
    (∀ (e : ClientEvent) (s : GameStore),
      (step e s).voteTimer.isActive = true →
        s.voteTimer.isActive = true ∨
        ∃ d, e = .audioReceivedEv d ∧ jsTruthyStr d.voting_started_at = true ∧
          jsTruthyNat d.vote_timeout_seconds = true) := by
  constructor
  · intro p s; rfl
  · intro e s h
    cases e with
    | roomStateEv d => rw [show step (.roomStateEv d) s = handleRoomState d s from rfl,
        handleRoomState_voteTimer d s] at h; exact Or.inl h
    | leftRoomEv => simp [step, resetStore, initialGameStore] at h
    | roundResultEv d =>
      rw [show step (.roundResultEv d) s = handleRoundResult d s from rfl,
        handleRoundResult_voteTimer_inactive d s] at h
      cases h
    | audioReceivedEv d =>
      rcases handleAudioReceived_voteTimer d s with heq | ⟨h1, h2, _⟩
      · rw [show step (.audioReceivedEv d) s = handleAudioReceived d s from rfl, heq] at h
        exact Or.inl h
      · exact Or.inr ⟨d, rfl, h1, h2⟩
    | gameCompleteEv d =>
      rw [show step (.gameCompleteEv d) s = handleGameComplete d s from rfl,
        handleGameComplete_voteTimer d s] at h
      exact Or.inl h
    | connectEv => exact Or.inl h
    | disconnectEv => exact Or.inl h
    | connectErrorEv m => exact Or.inl h
    | playerJoinedEv n => exact Or.inl h
    | playerReconnectedEv n => exact Or.inl h
    | playerLeftEv n => exact Or.inl h
    | playerDisconnectedEv n => exact Or.inl h
    | roundStartEv p => exact Or.inl h
    | speakerEmotionEv d => exact Or.inl h
    | voteTimeoutEv m => exact Or.inl h
    | errorEv c m => exact Or.inl h
    | localVoteEv i => exact Or.inl h

/-- C3 (witness): the activation characterization applied to a concrete
`audio_received` event with timer information, processed from the initial
state. -/
theorem vote_timer_activation_only_audio_received_witness :
    initialGameStore.voteTimer.isActive = true ∨
    ∃ d, ClientEvent.audioReceivedEv ⟨[1], "alice", none, some "t0", some 30, true⟩ =
        ClientEvent.audioReceivedEv d ∧
      jsTruthyStr d.voting_started_at = true ∧ jsTruthyNat d.vote_timeout_seconds = true :=
  vote_timer_activation_only_audio_received.2
    (.audioReceivedEv ⟨[1], "alice", none, some "t0", some 30, true⟩)
    initialGameStore (by decide)

/-- C4 (counterexample): the client's stored phase changes without any
`room_state` broadcast: after a `room_state` with phase `in_round`, processing
a `round_result` whose game is not complete locally rewrites the stored phase
to `waiting`. -/
theorem phase_local_change_counterexample :
    (runEvents [.roomStateEv ⟨"room1", [], .in_round,
        ⟨.basic, .fourChoice, .sequential, 30, 3, none⟩, none⟩]).roomState.map
      (fun rs => rs.phase) = some GamePhase.in_round ∧
    (runEvents [.roomStateEv ⟨"room1", [], .in_round,
        ⟨.basic, .fourChoice, .sequential, 30, 3, none⟩, none⟩,
      .roundResultEv ⟨"r1", "joy", none, "alice", [], [], none, none, none, none,
        none⟩]).roomState.map (fun rs => rs.phase) = some GamePhase.waiting :=
  ⟨rfl, rfl⟩

/-- C4 (amended): the stored phase changes only when processing `room_state`
(which overwrites the whole room state), `round_result` with the game not
complete (locally set to `waiting`), `game_complete` (locally set to
`closed`), or `left_room` (which clears the room state entirely); every other
event handler leaves the stored room state untouched. -/
theorem phase_change_event_characterization : ∀ (s : GameStore),
    (∀ d, (step (.roundResultEv d) s).roomState =
      (if jsTruthyBool d.isGameComplete then s.roomState
       else s.roomState.map (fun rs => { rs with phase := GamePhase.waiting }))) ∧
    (∀ d, (step (.gameCompleteEv d) s).roomState =
      s.roomState.map (fun rs => { rs with phase := GamePhase.closed })) ∧
    ((step .leftRoomEv s).roomState = none) ∧
    (∀ p, (step (.roundStartEv p) s).roomState = s.roomState) ∧
    (∀ d, (step (.speakerEmotionEv d) s).roomState = s.roomState) ∧
    (∀ d, (step (.audioReceivedEv d) s).roomState = s.roomState) ∧
    ((step .connectEv s).roomState = s.roomState) ∧
    ((step .disconnectEv s).roomState = s.roomState) ∧
    (∀ m, (step (.connectErrorEv m) s).roomState = s.roomState) ∧
    (∀ n, (step (.playerJoinedEv n) s).roomState = s.roomState) ∧
    (∀ n, (step (.playerReconnectedEv n) s).roomState = s.roomState) ∧
    (∀ n, (step (.playerLeftEv n) s).roomState = s.roomState) ∧
    (∀ n, (step (.playerDisconnectedEv n) s).roomState = s.roomState) ∧
    (∀ m, (step (.voteTimeoutEv m) s).roomState = s.roomState) ∧
    (∀ c m, (step (.errorEv c m) s).roomState = s.roomState) ∧
    (∀ i, (step (.localVoteEv i) s).roomState = s.roomState) := by
  intro s
  refine ⟨?_, ?_, rfl, fun p => rfl, fun d => rfl, ?_, rfl, rfl, fun m => rfl,
    fun n => rfl, fun n => rfl, fun n => rfl, fun n => rfl, fun m => rfl,
    fun c m => rfl, fun i => rfl⟩
  · intro d
    simp only [step, handleRoundResult, stopVoteTimer, setSpeakerEmotion, setCurrentRound,
      setLastResult, setRoomState]
    split
    · rfl
    · cases s.roomState <;> simp
  · intro d
    simp only [step, handleGameComplete, setGameComplete, setRoomState]
    cases s.roomState <;> simp
  · intro d
    simp only [step, handleAudioReceived, setError, setAudioProcessed, setAudioUrl,
      setVoteTimer]
    split
    · split <;> rfl
    · rfl

/-- C5: votes are scoped to the current round: processing `round_start`
always leaves the stored player vote cleared, because the handler calls
`setCurrentRound`, which resets `playerVote` to null alongside the new round,
so no vote from a previous round can survive into the new round. -/
theorem round_start_clears_player_vote :
    ∀ (p : RoundStartPayload) (s : GameStore),
      (step (.roundStartEv p) s).playerVote = none := by
  intro p s
  rfl

/-- C6: for every emotion id with an entry in `EMOTION_REVERSAL_MAP`,
`getVoiceProcessingForEmotion` returns the `emotion_reverse` pattern whose
pitch and tempo are exactly the mapped entry's values, regardless of the
random fallback choice. -/
theorem hard_mode_reversal_pattern :
    ∀ (emotionId : String) (reversal : ℚ × ℚ) (rand : ℕ),
      EMOTION_REVERSAL_MAP.lookup emotionId = some reversal →
      (getVoiceProcessingForEmotion emotionId rand).pattern = .emotion_reverse ∧
      (getVoiceProcessingForEmotion emotionId rand).pitch = reversal.1 ∧
      (getVoiceProcessingForEmotion emotionId rand).tempo = reversal.2 := by
  intro emotionId reversal rand h
  simp [getVoiceProcessingForEmotion, h]

/-- C6 (witness): the reversal selection at emotion id `joy` (mapped to the
sadness-like parameters pitch −3.0, tempo 0.8). -/
theorem hard_mode_reversal_pattern_witness :
    (getVoiceProcessingForEmotion "joy" 0).pattern = .emotion_reverse ∧
    (getVoiceProcessingForEmotion "joy" 0).pitch = ((-3.0 : ℚ), (0.8 : ℚ)).1 ∧
    (getVoiceProcessingForEmotion "joy" 0).tempo = ((-3.0 : ℚ), (0.8 : ℚ)).2 :=
  hard_mode_reversal_pattern "joy" (-3.0, 0.8) 0 rfl

/-- C7: the player identifier is durable: in the browser, once
`getOrCreatePlayerId` has returned an id (with a non-empty fresh UUID), the
id is persisted in storage, any later call returns that same id with the
storage unchanged, and a `join_room` message emitted later carries exactly
that persisted player id. -/
theorem player_id_idempotent_and_join_room :
    ∀ (storage : BrowserStorage) (u u2 roomId name : String), u ≠ "" →
      getOrCreatePlayerId true u2 (getOrCreatePlayerId true u storage).2 =
        ((getOrCreatePlayerId true u storage).1, (getOrCreatePlayerId true u storage).2) ∧
      (getOrCreatePlayerId true u storage).2.playerId =
        some (getOrCreatePlayerId true u storage).1 ∧
      (joinRoom roomId name true u2 (getOrCreatePlayerId true u storage).2).1.playerId =
        (getOrCreatePlayerId true u storage).1 := by
  intro storage u u2 roomId name hu
  rcases storage with ⟨pid, pname⟩
  cases pid with
  | none => simp [getOrCreatePlayerId, joinRoom, savePlayerName, hu]
  | some p =>
    by_cases hp : p = "" <;>
      simp [getOrCreatePlayerId, joinRoom, savePlayerName, hu, hp]

/-- C7 (witness): durability of the player id starting from empty storage
with fresh UUIDs `uuid-1` and `uuid-2`. -/
theorem player_id_idempotent_and_join_room_witness :
    getOrCreatePlayerId true "uuid-2" (getOrCreatePlayerId true "uuid-1" ⟨none, none⟩).2 =
      ((getOrCreatePlayerId true "uuid-1" ⟨none, none⟩).1,
       (getOrCreatePlayerId true "uuid-1" ⟨none, none⟩).2) ∧
    (getOrCreatePlayerId true "uuid-1" ⟨none, none⟩).2.playerId =
      some (getOrCreatePlayerId true "uuid-1" ⟨none, none⟩).1 ∧
    (joinRoom "room7" "alice" true "uuid-2"
      (getOrCreatePlayerId true "uuid-1" ⟨none, none⟩).2).1.playerId =
      (getOrCreatePlayerId true "uuid-1" ⟨none, none⟩).1 :=
  player_id_idempotent_and_join_room ⟨none, none⟩ "uuid-1" "uuid-2" "room7" "alice"
    (by decide)

/-- C8: the two embeddings of emotion-wheel axis distance agree: for every
pair of the 24 defined Plutchik emotions, the angle-based axis distance
computed inside `calculateEmotionDistance`
(`min(|angle1 − angle2|, 360 − |angle1 − angle2|) / 45`) equals the
position-based `calculateAxisDistance` applied to the two emotions' axes. -/
theorem angle_axis_distance_agree :
    ∀ emotion1 emotion2 : PlutchikEmotion,
      emotion1 ∈ PLUTCHIK_EMOTIONS_3_LAYER → emotion2 ∈ PLUTCHIK_EMOTIONS_3_LAYER →
      (calculateAxisDistance emotion1.axis emotion2.axis).map (fun n => (n : ℚ)) =
        some (angleAxisDistance emotion1 emotion2) := by
  intro e1 e2 h1 h2
  obtain ⟨p1, hl1, hp1, ha1⟩ := emotion_axis_angle_spec e1 h1
  obtain ⟨p2, hl2, hp2, ha2⟩ := emotion_axis_angle_spec e2 h2
  simp only [calculateAxisDistance, hl1, hl2, angleAxisDistance, ha1, ha2]
  rw [axisDistance_angle_eq p1 p2 hp1 hp2]
  by_cases hp : p1 = p2
  · simp [hp]
  · have hd8 : ((p1 : ℤ) - p2).natAbs ≤ 8 := by omega
    simp [hp]
    push_cast [Nat.cast_sub hd8]
    ring_nf

/-- C8 (witness): the agreement at the pair (`joy_strong`, `trust_medium`),
whose axes sit at wheel positions 0 and 1 (angles 0° and 45°). -/
theorem angle_axis_distance_agree_witness :
    (calculateAxisDistance
        (⟨"joy_strong", "joy", .strong, "陶酔", "Ecstasy", "#FFD700", 0, "🤩"⟩ :
          PlutchikEmotion).axis
        (⟨"trust_medium", "trust", .medium, "信頼", "Trust", "#90EE90", 45, "😊"⟩ :
          PlutchikEmotion).axis).map (fun n => (n : ℚ)) =
      some (angleAxisDistance
        ⟨"joy_strong", "joy", .strong, "陶酔", "Ecstasy", "#FFD700", 0, "🤩"⟩
        ⟨"trust_medium", "trust", .medium, "信頼", "Trust", "#90EE90", 45, "😊"⟩) :=
  angle_axis_distance_agree _ _ (List.mem_cons_self _ _)
    (List.mem_cons_of_mem _ (List.mem_cons_of_mem _ (List.mem_cons_of_mem _
      (List.mem_cons_of_mem _ (List.mem_cons_self _ _)))))

/-- C9 (counterexample): `calculatePlutchikScore3Layer` violates the claimed
bounds and equality characterization at explicit inputs: with fractional
`maxScore = 9/10`, the pair (`joy_medium`, `joy_weak`) scores 1 > 9/10; with
`maxScore = 0`, the distinct pair (`joy_medium`, `sadness_medium`) scores 0,
so the score equals `maxScore` even though the two ids differ. -/
theorem plutchik_score_bounds_counterexample :
    ((calculatePlutchikScore3Layer "joy_medium" "joy_weak" (9 / 10)).map
        (fun r => r.score) = some 1 ∧ ¬ ((1 : ℚ) ≤ 9 / 10)) ∧
    ((calculatePlutchikScore3Layer "joy_medium" "sadness_medium" 0).map
        (fun r => r.score) = some 0 ∧ ("joy_medium" : String) ≠ "sadness_medium") := by
  have hc : getEmotionById "joy_medium" =
      some ⟨"joy_medium", "joy", .medium, "喜び", "Joy", "#FFE55C", 0, "😊"⟩ := rfl
  have hg1 : getEmotionById "joy_weak" =
      some ⟨"joy_weak", "joy", .weak, "平穏", "Serenity", "#FFF2B8", 0, "😌"⟩ := rfl
  have hg2 : getEmotionById "sadness_medium" =
      some ⟨"sadness_medium", "sadness", .medium, "悲しみ", "Sadness", "#4169E1", 180, "😢"⟩ := rfl
  have had1 : calculateAxisDistance "joy" "joy" = some 0 := rfl
  have hrel1 : getAxisRelationship "joy" "joy" = some .same_axis := rfl
  have had2 : calculateAxisDistance "joy" "sadness" = some 4 := rfl
  have hrel2 : getAxisRelationship "joy" "sadness" = some .opposite_axis := rfl
  refine ⟨⟨?_, by norm_num⟩, ⟨?_, by decide⟩⟩
  · rw [calcScore_nonexact "joy_medium" "joy_weak" _ _ _ hc hg1 (by decide) 0
      .same_axis had1 hrel1]
    simp only [Option.map_some', getIntensityMatch, calculateIntensityDistance,
      INTENSITY_VALUES]
    norm_num [baseScore, jsRound]
  · rw [calcScore_nonexact "joy_medium" "sadness_medium" _ _ _ hc hg2 (by decide) 4
      .opposite_axis had2 hrel2]
    simp only [Option.map_some', getIntensityMatch, calculateIntensityDistance,
      INTENSITY_VALUES]
    norm_num [baseScore, jsRound]

/-- C9 (amended): for valid emotion ids and a natural-number `maxScore`, the
3-layer score satisfies `0 ≤ score ≤ maxScore`, the score is symmetric in the
two ids, equal ids always score exactly `maxScore`, and for `maxScore ≥ 4`
(where rounding can no longer reach the maximum from a partial-credit
fraction) `score = maxScore` implies the ids are equal. -/
theorem plutchik_score_bounds_amended :
    ∀ (c g : String) (m : ℕ),
      (getEmotionById c).isSome = true → (getEmotionById g).isSome = true →
      ∃ res, calculatePlutchikScore3Layer c g (m : ℚ) = some res ∧
        0 ≤ res.score ∧ res.score ≤ (m : ℚ) ∧
        (c = g → res.score = (m : ℚ)) ∧
        (4 ≤ m → res.score = (m : ℚ) → c = g) ∧
        (calculatePlutchikScore3Layer g c (m : ℚ)).map (fun r => r.score) =
          some res.score := by
  intro c g m hc hg
  rw [Option.isSome_iff_exists] at hc hg
  obtain ⟨ec, hec⟩ := hc
  obtain ⟨eg, heg⟩ := hg
  by_cases hcg : c = g
  · subst hcg
    refine ⟨⟨(m : ℚ), 0, 0, 0, .exact_, .exact_, (m : ℚ)⟩,
      calcScore_exact c ec m hec, Nat.cast_nonneg m, le_refl _,
      fun _ => rfl, fun _ _ => rfl, ?_⟩
    rw [calcScore_exact c ec m hec]
    rfl
  · obtain ⟨p1, hl1, _, _⟩ := emotion_axis_angle_spec ec (getEmotionById_mem hec)
    obtain ⟨p2, hl2, _, _⟩ := emotion_axis_angle_spec eg (getEmotionById_mem heg)
    obtain ⟨dist, hdist⟩ := axisDistance_defined ec eg p1 p2 hl1 hl2
    obtain ⟨rel, hrel⟩ := axisRelationship_defined ec eg dist hdist
    have hcalc := calcScore_nonexact c g ec eg (m : ℚ) hec heg hcg dist rel hdist hrel
    have hdist2 : calculateAxisDistance eg.axis ec.axis = some dist := by
      rw [calculateAxisDistance_comm]; exact hdist
    have hrel2 : getAxisRelationship eg.axis ec.axis = some rel := by
      rw [getAxisRelationship_comm]; exact hrel
    have hcalc2 := calcScore_nonexact g c eg ec (m : ℚ) heg hec
      (fun h => hcg h.symm) dist rel hdist2 hrel2
    set im := getIntensityMatch ec.intensity eg.intensity with him
    have him2 : getIntensityMatch eg.intensity ec.intensity = im := by
      rw [getIntensityMatch_comm]
    have hsc : baseScore rel im (m : ℚ) = (jsRound (baseCoeff rel im * m) : ℚ) :=
      baseScore_eq rel im (m : ℚ)
    refine ⟨_, hcalc, ?_, ?_, fun h => absurd h hcg, fun hm4 hscm => ?_, ?_⟩
    · show 0 ≤ baseScore rel im (m : ℚ)
      rw [hsc]
      exact jsRound_cast_nonneg _ (mul_nonneg (baseCoeff_nonneg rel im) (Nat.cast_nonneg m))
    · show baseScore rel im (m : ℚ) ≤ (m : ℚ)
      rw [hsc]
      exact jsRound_cast_le_nat _ m (baseCoeff_nonneg rel im)
        (le_trans (baseCoeff_le rel im) (by norm_num))
    · exfalso
      have hlt : baseScore rel im (m : ℚ) < (m : ℚ) := by
        rw [hsc]
        exact jsRound_cast_lt_nat _ m (baseCoeff_le rel im) hm4
      rw [show (⟨baseScore rel im (m : ℚ), dist,
          calculateIntensityDistance ec.intensity eg.intensity,
          calculateEmotionDistance ec eg, rel, im, (m : ℚ)⟩ :
          PlutchikScoringResult3Layer).score = baseScore rel im (m : ℚ) from rfl] at hscm
      exact absurd hscm (ne_of_lt hlt)
    · rw [hcalc2, him2]
      rfl

/-- C9 (witness): the amended bounds at the valid pair (`joy_medium`,
`trust_weak`) with `maxScore = 7`. -/
theorem plutchik_score_bounds_amended_witness :
    ∃ res, calculatePlutchikScore3Layer "joy_medium" "trust_weak" ((7 : ℕ) : ℚ) = some res ∧
      0 ≤ res.score ∧ res.score ≤ ((7 : ℕ) : ℚ) ∧
      ("joy_medium" = "trust_weak" → res.score = ((7 : ℕ) : ℚ)) ∧
      (4 ≤ 7 → res.score = ((7 : ℕ) : ℚ) → "joy_medium" = "trust_weak") ∧
      (calculatePlutchikScore3Layer "trust_weak" "joy_medium" ((7 : ℕ) : ℚ)).map
        (fun r => r.score) = some res.score :=
  plutchik_score_bounds_amended "joy_medium" "trust_weak" 7 rfl rfl

/-- C10: `calculatePlutchikScore3Layer` raises an error (returns `none` in
the embedding) exactly when at least one of its two emotion-id arguments is
not among the 24 defined emotions; when both ids are defined, no error branch
(including the invalid-axis branch of `calculateAxisDistance`) is reachable
and a result is always returned. -/
theorem plutchik_score_error_iff_invalid_id :
    ∀ (c g : String) (m : ℚ),
      calculatePlutchikScore3Layer c g m = none ↔
        (getEmotionById c = none ∨ getEmotionById g = none) := by
  intro c g m
  constructor
  · intro h
    by_contra hcon
    push_neg at hcon
    obtain ⟨ec, hec⟩ := Option.ne_none_iff_exists'.mp hcon.1
    obtain ⟨eg, heg⟩ := Option.ne_none_iff_exists'.mp hcon.2
    have hs := calcScore_isSome c g ec eg m hec heg
    rw [h] at hs
    cases hs
  · intro h
    rcases h with h | h
    · simp [calculatePlutchikScore3Layer, h]
    · cases hc : getEmotionById c <;> simp [calculatePlutchikScore3Layer, hc, h]
